import Mathlib

/-!
Verification of the FinAI capstone tool layer (src/tools_capstone.py).

Modelling conventions, fixed once for the whole file:

* Python values are embedded as `PyVal`: None, bool, numbers, strings,
  lists, and string-keyed dicts (association lists in insertion order,
  which is also Python dict order).  Numbers (int and float alike) are
  embedded as exact rationals; every arithmetic fact proved below is
  exact in IEEE double precision as well for the concrete inputs used.
* Code that can raise a Python exception is embedded in `Except PyErr`;
  a value `Except.error e` models an exception propagating out of the
  function, `Except.ok v` models a normal return of `v`.
* The two network adapters are embedded as functions of an explicit
  `HttpResponse` argument describing what the HTTP round trip produced:
  status code, reason phrase, raw body text, the parsed JSON body
  (`Option.none` models a JSON decode failure), and the decode-error
  message used when parsing fails.  `requests.Response.raise_for_status`
  raises exactly for status codes of 400 and above.
* A tool that performs a network call returns, besides its result, the
  request it issued (`Option.none` models that no request was sent).
-/

/-- Embedding of a Python runtime value (the JSON-expressible fragment
plus None and bool, which is all the tool layer manipulates). -/
inductive PyVal where
  | none : PyVal
  | bool : Bool → PyVal
  | num  : ℚ → PyVal
  | str  : String → PyVal
  | list : List PyVal → PyVal
  | dict : List (String × PyVal) → PyVal
  deriving BEq

/-- Python exceptions that the embedded code can raise. -/
inductive PyErr where
  | typeError : PyErr
  | attributeError : PyErr
  deriving DecidableEq, BEq

/-- Lookup in an association-list dict with a default, like
`dict.get(k, d)` on a dict known to be a dict. -/
def lookupD (kvs : List (String × PyVal)) (k : String) (d : PyVal) : PyVal :=
  match kvs.find? (fun kv => kv.1 == k) with
  | Option.none => d
  | Option.some kv => kv.2

/-- Key membership in an association-list dict. -/
def hasKey (kvs : List (String × PyVal)) (k : String) : Bool :=
  kvs.any (fun kv => kv.1 == k)

/-- Python truthiness of a value. -/
def truthy : PyVal → Bool
  | .none => false
  | .bool b => b
  | .num q => if q = 0 then false else true
  | .str s => !(s == "")
  | .list l => !l.isEmpty
  | .dict kvs => !kvs.isEmpty

/-- Python `a or b`: the first operand when truthy, otherwise the second. -/
def pyOr (a b : PyVal) : PyVal := if truthy a then a else b

/-- True exactly on the embedded Python None (models `x is None`). -/
def PyVal.isNone : PyVal → Bool
  | .none => true
  | _ => false

/-- True exactly on dict values (models `isinstance(x, dict)`). -/
def isDict : PyVal → Bool
  | .dict _ => true
  | _ => false

/-- Combined `isinstance(x, dict) and k in x and x[k]` access: the value at
key `k` when `x` is a dict holding `k`, `Option.none` otherwise. -/
def dictFind : PyVal → String → Option PyVal
  | .dict kvs, k =>
      match kvs.find? (fun kv => kv.1 == k) with
      | Option.none => Option.none
      | Option.some kv => Option.some kv.2
  | _, _ => Option.none

/-- Python `x.get(k, d)`: raises AttributeError when `x` is not a dict. -/
def dictGetD : PyVal → String → PyVal → Except PyErr PyVal
  | .dict kvs, k, d => .ok (lookupD kvs k d)
  | _, _, _ => .error .attributeError

/-- Whether the character list `pre` is an initial segment of `s`. -/
def strLeads : List Char → List Char → Bool
  | [], _ => true
  | _ :: _, [] => false
  | a :: as, b :: bs => a == b && strLeads as bs

/-- Whether the character list `sub` occurs inside `s` (Python substring
membership `sub in s`). -/
def strHasSub (sub : List Char) : List Char → Bool
  | [] => strLeads sub []
  | c :: rest => strLeads sub (c :: rest) || strHasSub sub rest

/-- Python membership `item in container`: key membership for dicts
(TypeError on unhashable keys), element equality for lists, substring for
strings (TypeError when the left operand is not a string), TypeError on
non-container right operands. -/
def pyContains (item container : PyVal) : Except PyErr Bool :=
  match container with
  | .dict kvs =>
      match item with
      | .str s => .ok (hasKey kvs s)
      | .list _ => .error .typeError
      | .dict _ => .error .typeError
      | _ => .ok false
  | .list l => .ok (l.contains item)
  | .str s =>
      match item with
      | .str sub => .ok (strHasSub sub.data s.data)
      | _ => .error .typeError
  | _ => .error .typeError

/-- The whitespace set of Python `str.strip()`. -/
def pyWhitespace (c : Char) : Bool :=
  c == ' ' || c == '\t' || c == '\n' || c == '\r' || c == '\x0b' || c == '\x0c'

/-- Python `s.strip()`. -/
def pyStrip (s : String) : String :=
  String.mk (((s.data.dropWhile pyWhitespace).reverse.dropWhile pyWhitespace).reverse)

/-- Python `s.upper()` on the ASCII inputs the tool layer handles. -/
def pyUpper (s : String) : String :=
  String.mk (s.data.map Char.toUpper)

/-- Value of an all-digit character list read in base 10. -/
def digitsVal (l : List Char) : ℕ :=
  l.foldl (fun acc c => acc * 10 + (c.toNat - 48)) 0

/-- Modelled from the spec: Python builtin `float` applied to a string
(the coercion used by get_purification_amount; `float` itself is an
external builtin, not repository code).  Accepts an optional sign, then
digits with an optional fractional part, surrounded by optional
whitespace; exponent, infinity and nan spellings are omitted, no claim
exercises them.  Returns the exact rational value. -/
def parseDecimal (s : String) : Option ℚ :=
  let t := (pyStrip s).data
  let signAndRest : ℚ × List Char :=
    match t with
    | '-' :: rest => (-1, rest)
    | '+' :: rest => (1, rest)
    | _ => (1, t)
  let u := signAndRest.2
  let intPart := u.takeWhile Char.isDigit
  let rest := u.dropWhile Char.isDigit
  match rest with
  | [] =>
      if intPart.isEmpty then Option.none
      else Option.some (signAndRest.1 * (digitsVal intPart : ℚ))
  | '.' :: frac =>
      if (intPart.isEmpty && frac.isEmpty) || !(frac.all Char.isDigit) then Option.none
      else Option.some
        (signAndRest.1 * ((digitsVal intPart : ℚ) + (digitsVal frac : ℚ) / 10 ^ frac.length))
  | _ => Option.none

/-- Python `float(x)` on an embedded value: numbers and bools coerce,
strings parse, everything else fails (`Option.none` models the raised
ValueError/TypeError, which the caller catches). -/
def pyFloat : PyVal → Option ℚ
  | .num q => Option.some q
  | .bool b => Option.some (if b then 1 else 0)
  | .str s => parseDecimal s
  | _ => Option.none

/-- Outcome of one HTTP round trip, as seen by the adapter code. -/
structure HttpResponse where
  status : ℕ
  reason : String
  text : String
  jsonBody : Option PyVal
  parseErrMsg : String

/-- Embedding of retrieve_from_endpoint (src/tools_capstone.py lines
19-51) as a function of the HTTP response: non-2xx/3xx statuses become the
HTTPError dict, a JSON decode failure is caught by the generic handler and
becomes the catch-all dict, and otherwise the parsed body is returned
as-is, whatever shape it has. -/
def retrieve_from_endpoint (url : String) (resp : HttpResponse) : PyVal :=
  if 400 ≤ resp.status then
    .dict [("error", .str ("HTTPError " ++ toString resp.status ++ " - " ++ resp.reason)),
           ("url", .str url),
           ("detail", .str resp.text)]
  else
    match resp.jsonBody with
    | Option.none =>
        .dict [("error", .str ("Unexpected error: JSONDecodeError - " ++ resp.parseErrMsg)),
               ("url", .str url)]
    | Option.some body => body

/-- Embedding of the POST payload construction of retrieve_graphql_endpoint
(src/tools_capstone.py lines 84-88): `query` always, `variables` when the
argument is not None, `operationName` when the argument is truthy. -/
def graphqlPayload (query : String) (vars : Option PyVal)
    (operationName : Option String) : PyVal :=
  let p := [("query", PyVal.str query)]
  let p := match vars with
    | Option.some v => p ++ [("variables", v)]
    | Option.none => p
  let p := match operationName with
    | Option.some op => if op == "" then p else p ++ [("operationName", PyVal.str op)]
    | Option.none => p
  .dict p

/-- Embedding of a Python `str | None` value. -/
def optStrToPy : Option String → PyVal
  | Option.some s => .str s
  | Option.none => .none

/-- Embedding of a Python `dict | None` value. -/
def optToPy : Option PyVal → PyVal
  | Option.some v => v
  | Option.none => .none

/-- Embedding of retrieve_graphql_endpoint (src/tools_capstone.py lines
54-126) as a function of the HTTP response: HTTPError dict for status 400
and above, catch-all dict (with the parse-specific detail) for a JSON
decode failure, the GraphQLError dict when the parsed dict body carries a
truthy `errors` entry, and otherwise a dict holding the body under `data`
(None when the body is not a dict). -/
def retrieve_graphql_endpoint (endpoint query : String) (vars : Option PyVal)
    (operationName : Option String) (resp : HttpResponse) : PyVal :=
  if 400 ≤ resp.status then
    .dict [("error", .str ("HTTPError " ++ toString resp.status ++ " - " ++ resp.reason)),
           ("url", .str endpoint),
           ("detail", .str resp.text)]
  else
    match resp.jsonBody with
    | Option.none =>
        .dict [("error", .str ("Unexpected error: JSONDecodeError - " ++ resp.parseErrMsg)),
               ("url", .str endpoint),
               ("detail", .str "Failed to parse JSON response.")]
    | Option.some body =>
      match body with
      | .dict kvs =>
          let errs := lookupD kvs "errors" .none
          if truthy errs then
            .dict [("error", .str "GraphQLError"),
                   ("errors", errs),
                   ("request", .dict [("endpoint", .str endpoint),
                                      ("operationName", optStrToPy operationName),
                                      ("variables", optToPy vars)])]
          else
            .dict [("data", lookupD kvs "data" .none)]
      | _ => .dict [("data", .none)]

/-- The GraphQL document of the compliance query (src/tools_capstone.py
lines 129-142). -/
def query_compliance_report : String :=
  "\nquery getReport($symbol: String!) \x7b\n  basicCompliance \x7b\n    report(symbol: $symbol) \x7b\n      exchange\n      name\n      purificationRatio\n      reportDate\n      status\n      symbol\n    \x7d\n  \x7d\n\x7d\n"

/-- The compliance GraphQL endpoint (src/tools_capstone.py line 160). -/
def complianceEndpoint : String := "https://api.zoya.finance/graphql"

/-- One outbound GraphQL request as assembled by a tool. -/
structure GqlRequest where
  endpoint : String
  query : String
  vars : Option PyVal
  operationName : Option String

/-- Embedding of the chained report access of src/tools_capstone.py lines
179-180: take the data entry or the empty dict when falsy, get
basicCompliance from it, take that or the empty dict when falsy, and get
report from the result; raises AttributeError when a truthy non-dict is
reached along the way. -/
def reportLookup (x : PyVal) : Except PyErr PyVal :=
  match dictGetD (pyOr x (.dict [])) "basicCompliance" .none with
  | .error e => .error e
  | .ok bc => dictGetD (pyOr bc (.dict [])) "report" .none

/-- The NotFound dict built for a normalized symbol (src/tools_capstone.py
lines 182-185). -/
def notFoundDict (v : String) : PyVal :=
  .dict [("error", .str "NotFound"),
         ("detail", .str ("No compliance report found for symbol \x27" ++ v ++ "\x27."))]

/-- Embedding of the not-found normalization of get_compliance_report
(src/tools_capstone.py lines 176-187). -/
def complianceNormalize (v : String) (result : PyVal) : Except PyErr PyVal :=
  match dictFind result "data" with
  | Option.none => .ok result
  | Option.some x =>
      match reportLookup x with
      | .error e => .error e
      | .ok report => if report.isNone then .ok (notFoundDict v) else .ok result

/-- The InvalidInput dict of get_compliance_report (src/tools_capstone.py
line 164). -/
def invalidSymbolDict : PyVal :=
  .dict [("error", .str "InvalidInput"),
         ("detail", .str "symbol must be a non-empty string.")]

/-- Embedding of get_compliance_report (src/tools_capstone.py lines
144-187) as a function of the symbol argument and of the HTTP response the
GraphQL endpoint would produce.  The first component is the request issued
(`Option.none` when no network call is made). -/
def get_compliance_report (symbol : PyVal) (resp : HttpResponse) :
    Option GqlRequest × Except PyErr PyVal :=
  match symbol with
  | .str s =>
      if pyStrip s == "" then (Option.none, .ok invalidSymbolDict)
      else
        let v := pyUpper (pyStrip s)
        let vars : PyVal := .dict [("symbol", .str v)]
        let req : GqlRequest :=
          ⟨complianceEndpoint, query_compliance_report,
            Option.some vars, Option.some "getReport"⟩
        let result := retrieve_graphql_endpoint complianceEndpoint query_compliance_report
          (Option.some vars) (Option.some "getReport") resp
        (Option.some req, complianceNormalize v result)
  | _ => (Option.none, .ok invalidSymbolDict)

/-- The InvalidInput dict of get_purification_amount
(src/tools_capstone.py line 207). -/
def invalidNumberDict : PyVal :=
  .dict [("status", .str "error"), ("error", .str "InvalidInput"),
         ("detail", .str "All inputs must be numbers.")]

/-- Embedding of get_purification_amount (src/tools_capstone.py lines
190-215): coerce the three arguments with float, InvalidInput when any
coercion fails, otherwise the ok dict with the echoed inputs and
ratio * (capital_gain + dividend_income).  A pure function of its
arguments: no network response parameter appears. -/
def get_purification_amount (ratio cg dv : PyVal) : PyVal :=
  match pyFloat ratio, pyFloat cg, pyFloat dv with
  | Option.some r, Option.some c, Option.some d =>
      .dict [("status", .str "ok"),
             ("ratio_used", .num r),
             ("inputs", .dict [("capital_gain", .num c), ("dividend_income", .num d)]),
             ("amount", .num (r * (c + d)))]
  | _, _, _ => invalidNumberDict

/-- The Python default 0.0 of capital_gain and dividend_income
(src/tools_capstone.py line 191). -/
def purificationDefault : PyVal := .num 0

/-- get_purification_amount called with only the ratio, the other two
arguments at their declared defaults. -/
def get_purification_amount_defaults (ratio : PyVal) : PyVal :=
  get_purification_amount ratio purificationDefault purificationDefault

/-- The token literal hard-coded into the metrics URL
(src/tools_capstone.py line 229). -/
def finnhubTokenLiteral : String := "d44ckbhr01qt371ud7agd44ckbhr01qt371ud7b0"

/-- Embedding of the URL f-string of get_company_overview_CP2
(src/tools_capstone.py line 229). -/
def get_company_overview_CP2_url (stock : String) : String :=
  "https://finnhub.io/api/v1/stock/metric?symbol=" ++ stock ++
    "&metric=all&token=" ++ finnhubTokenLiteral

/-- Stated from the words of the spec, for comparison with the URL the
source builds: GET .../stock/metric with the given symbol, metric=all and
the configured metrics-provider API key as token. -/
def metricsUrlFromKey (apiKey stock : String) : String :=
  "https://finnhub.io/api/v1/stock/metric?symbol=" ++ stock ++
    "&metric=all&token=" ++ apiKey

/-- The headers of retrieve_from_endpoint (src/tools_capstone.py line 24):
the configured FINNHUB_API_KEY travels only here, never in the URL. -/
def restHeaders (apiKey : String) : List (String × String) :=
  [("X-Finnhub-Token", apiKey)]

/-- Embedding of get_company_overview_CP2 (src/tools_capstone.py lines
219-242) as a function of the stock argument and of the HTTP response the
metrics endpoint would produce: delegate to the REST adapter, pass the
result through unchanged when `"error" in data`, otherwise rebuild a dict
from `data.get("metric", \x7b\x7d)`. -/
def get_company_overview_CP2 (stock : String) (resp : HttpResponse) : Except PyErr PyVal :=
  let data := retrieve_from_endpoint (get_company_overview_CP2_url stock) resp
  match pyContains (.str "error") data with
  | .error e => .error e
  | .ok hasErr =>
      if hasErr then .ok data
      else
        match dictGetD data "metric" (.dict []) with
        | .error e => .error e
        | .ok latest => .ok (.dict [("symbol", .str stock), ("latest_metrics", latest)])

/-- One chat message of a session history. -/
structure Message where
  role : String
  content : String
  deriving DecidableEq

/-- Modelled from the spec: the Session Memory Store backing the source
call StreamlitChatMessageHistory(key=session_id); the store itself
(st.session_state) is library code not in this repository.  Spec contract:
get(session_id) yields the ordered message sequence of that key, an
unknown key yields the empty sequence, append adds one message at the end
of exactly that key, at the end of its sequence. -/
abbrev MemoryStore := String → List Message

/-- Retrieval of the ordered history of one session. -/
def MemoryStore.get (st : MemoryStore) (k : String) : List Message := st k

/-- Appending one message to the history of one session. -/
def MemoryStore.append (st : MemoryStore) (k : String) (m : Message) : MemoryStore :=
  fun k2 => if k2 == k then st k2 ++ [m] else st k2

/-- Embedding of get_session_history (src/tools_capstone.py lines
293-295): the widget key a session identifier is stored under is the
identifier itself. -/
def get_session_history (sessionId : String) : String := sessionId

/-- Whether an embedded computation returned normally. -/
def isOkE : Except PyErr PyVal → Bool
  | .ok _ => true
  | .error _ => false

/-- Whether an embedded computation returned a dict normally. -/
def isDictE : Except PyErr PyVal → Bool
  | .ok (.dict _) => true
  | _ => false

/-- Shape condition on a compliance response under which the not-found
normalization dereferences no truthy non-dict: every failure branch of the
adapter qualifies, and a success body qualifies exactly when the report
lookup on its data entry returns instead of raising. -/
def complianceRespOk (resp : HttpResponse) : Bool :=
  if 400 ≤ resp.status then true
  else
    match resp.jsonBody with
    | Option.some (.dict kvs) =>
        if truthy (lookupD kvs "errors" .none) then true
        else isOkE (reportLookup (lookupD kvs "data" .none))
    | _ => true

/-- Shape condition on a metrics response under which the REST adapter
hands the overview tool a dict: every failure branch qualifies, and a
success body qualifies exactly when the parsed body is a dict. -/
def restRespShapeOk (resp : HttpResponse) : Bool :=
  if 400 ≤ resp.status then true
  else
    match resp.jsonBody with
    | Option.some (.dict _) => true
    | Option.none => true
    | _ => false

/-- The compliance response body with an explicit null report field. -/
def nullReportBody : PyVal :=
  .dict [("data", .dict [("basicCompliance", .dict [("report", .none)])])]

/-- A 200 response whose body cannot be parsed as JSON, with the message
CPython produces for an empty-prefix decode failure. -/
def parseFailResp : HttpResponse :=
  ⟨200, "OK", "not json", Option.none, "Expecting value: line 1 column 1 (char 0)"⟩

/-- Left cancellation of string concatenation. -/
theorem string_append_left_cancel {a b c : String} (h : a ++ b = a ++ c) : b = c := by
  have h2 : (a ++ b).data = (a ++ c).data := congrArg String.data h
  rw [String.data_append, String.data_append] at h2
  exact String.ext (List.append_cancel_left h2)

/-- C5 counterexample: the empty operation name is provided (it is not
None) yet the payload omits operationName, because the source tests
truthiness rather than None-ness of operation_name. -/
theorem graphql_payload_empty_opname_omitted :
    graphqlPayload "q" Option.none (Option.some "") = .dict [("query", .str "q")]
    ∧ dictFind (graphqlPayload "q" Option.none (Option.some "")) "operationName" =
        Option.none :=
  ⟨rfl, rfl⟩

/-- C5 (amended): the GraphQL request body always carries query with the
given document; it carries variables, with the given value, exactly when
the variables argument is not None; it carries operationName exactly when
the given operation name is non-empty — absent keys are omitted from the
body, never set to None. -/
theorem graphql_payload_keys :
    ∀ (q : String) (vars : Option PyVal) (opName : Option String),
      dictFind (graphqlPayload q vars opName) "query" = Option.some (.str q)
      ∧ dictFind (graphqlPayload q vars opName) "variables" = vars
      ∧ dictFind (graphqlPayload q vars opName) "operationName" =
          (match opName with
           | Option.some op => if op == "" then Option.none else Option.some (.str op)
           | Option.none => Option.none) := by
  intro q vars opName
  rcases vars with _ | v <;> rcases opName with _ | op
  · exact ⟨rfl, rfl, rfl⟩
  · cases hop : (op == "") <;> refine ⟨?_, ?_, ?_⟩ <;>
      simp [graphqlPayload, dictFind, hop]
  · exact ⟨rfl, rfl, rfl⟩
  · cases hop : (op == "") <;> refine ⟨?_, ?_, ?_⟩ <;>
      simp [graphqlPayload, dictFind, hop]

/-- C7 counterexample: a 200 response with an unparseable body makes the
REST adapter answer with the error string of the catch-all branch, naming
JSONDecodeError under the Unexpected error format; the GraphQL adapter
answers with the same error string; the string ParseError occurs in
neither, so parse failures are not reported as a kind distinct from the
catch-all UnexpectedError form. -/
theorem parse_failure_not_parseerror :
    dictFind (retrieve_from_endpoint "https://finnhub.io/api/v1/x" parseFailResp) "error" =
      Option.some (.str "Unexpected error: JSONDecodeError - Expecting value: line 1 column 1 (char 0)")
    ∧ strHasSub "ParseError".data
        "Unexpected error: JSONDecodeError - Expecting value: line 1 column 1 (char 0)".data = false
    ∧ dictFind (retrieve_graphql_endpoint "https://api.zoya.finance/graphql" "q"
          Option.none Option.none parseFailResp) "error" =
      Option.some (.str "Unexpected error: JSONDecodeError - Expecting value: line 1 column 1 (char 0)") :=
  ⟨rfl, by decide, rfl⟩

/-- C7 (amended): whenever the transport succeeds (status below 400) but
the body fails to parse, the REST adapter returns the catch-all dict with
the Unexpected error kind-string naming JSONDecodeError, and the GraphQL
adapter returns the same kind-string together with the distinguishing
detail Failed to parse JSON response.; neither adapter has a branch
producing a separate ParseError kind. -/
theorem parse_failure_reported_as_unexpected :
    ∀ (url q : String) (vars : Option PyVal) (opName : Option String)
      (resp : HttpResponse), resp.status < 400 → resp.jsonBody = Option.none →
      retrieve_from_endpoint url resp =
        .dict [("error", .str ("Unexpected error: JSONDecodeError - " ++ resp.parseErrMsg)),
               ("url", .str url)]
      ∧ retrieve_graphql_endpoint url q vars opName resp =
        .dict [("error", .str ("Unexpected error: JSONDecodeError - " ++ resp.parseErrMsg)),
               ("url", .str url),
               ("detail", .str "Failed to parse JSON response.")] := by
  intro url q vars opName resp h1 h2
  have h3 : ¬ (400 ≤ resp.status) := by omega
  constructor <;> simp [retrieve_from_endpoint, retrieve_graphql_endpoint, h2, h3]

/-- C7 witness at a concrete parse-failure response. -/
theorem parse_failure_reported_as_unexpected_witness :
    retrieve_from_endpoint "https://u" parseFailResp =
      .dict [("error", .str ("Unexpected error: JSONDecodeError - " ++ parseFailResp.parseErrMsg)),
             ("url", .str "https://u")] :=
  (parse_failure_reported_as_unexpected "https://u" "q" Option.none Option.none
    parseFailResp (by decide) rfl).1

/-- C8 counterexample: at the configuration whose metrics API key is
EXAMPLE_FINNHUB_KEY, the URL the source builds differs from the
spec-described URL carrying the configured key as the token parameter: the
token in the URL is hard-coded. -/
theorem overview_url_token_not_configured_key :
    get_company_overview_CP2_url "AAPL" ≠ metricsUrlFromKey "EXAMPLE_FINNHUB_KEY" "AAPL" := by
  decide

/-- C8 (amended): for every stock, the metrics request URL is the
.../stock/metric GET with symbol=stock, metric=all and token equal to the
hard-coded literal of source line 229; for any configured key other than
that literal, the URL differs from the one the spec describes (token equal
to the configured FINNHUB_API_KEY), which travels only in the
X-Finnhub-Token request header. -/
theorem overview_url_uses_hardcoded_token :
    ∀ (stock apiKey : String),
      get_company_overview_CP2_url stock = metricsUrlFromKey finnhubTokenLiteral stock
      ∧ (apiKey ≠ finnhubTokenLiteral →
          get_company_overview_CP2_url stock ≠ metricsUrlFromKey apiKey stock) := by
  intro stock apiKey
  refine ⟨rfl, ?_⟩
  intro hk h
  apply hk
  unfold get_company_overview_CP2_url metricsUrlFromKey at h
  exact (string_append_left_cancel h).symm

/-- C8 witness at a concrete stock and configured key. -/
theorem overview_url_uses_hardcoded_token_witness :
    get_company_overview_CP2_url "MSFT" ≠ metricsUrlFromKey "ANOTHER_KEY" "MSFT" :=
  (overview_url_uses_hardcoded_token "MSFT" "ANOTHER_KEY").2 (by decide)

/-- C9: sessions with distinct identifiers keep disjoint state: appending
a message under one identifier leaves the history retrieved under any
other identifier unchanged, for every prior store state; hence a message
absent from session B stays absent from B after being appended to A. -/
theorem session_isolation :
    ∀ (st : MemoryStore) (a b : String) (m : Message), a ≠ b →
      MemoryStore.get (MemoryStore.append st (get_session_history a) m)
          (get_session_history b) = MemoryStore.get st (get_session_history b)
      ∧ (m ∉ MemoryStore.get st (get_session_history b) →
          m ∉ MemoryStore.get (MemoryStore.append st (get_session_history a) m)
              (get_session_history b)) := by
  intro st a b m hab
  have hba : (b == a) = false := beq_eq_false_iff_ne.mpr (Ne.symm hab)
  constructor
  · simp [MemoryStore.get, MemoryStore.append, get_session_history, hba]
  · intro hm
    simpa [MemoryStore.get, MemoryStore.append, get_session_history, hba] using hm

/-- C9 witness: starting from the empty store, a message appended to
session s1 is not retrievable under session s2. -/
theorem session_isolation_witness :
    MemoryStore.get
        (MemoryStore.append (fun _ => []) (get_session_history "s1") ⟨"human", "hi"⟩)
        (get_session_history "s2") =
      MemoryStore.get (fun _ => []) (get_session_history "s2") :=
  (session_isolation (fun _ => []) "s1" "s2" ⟨"human", "hi"⟩ (by decide)).1

/-- C2: get_purification_amount coerces its three arguments with float;
when all three coerce to r, c, d it returns the ok dict echoing the
coerced inputs with amount r * (c + d); when any coercion fails it returns
the InvalidInput dict; in particular (0.1, 1000, 200) yields amount 120,
the one-argument call at the declared defaults yields amount 0, and
("abc", 1, 1) yields InvalidInput.  The embedding is a pure function of
its three arguments — no response parameter appears — so the computation
is deterministic and involves no network call. -/
theorem purification_amount_spec :
    (∀ (ratio cg dv : PyVal) (r c d : ℚ),
        pyFloat ratio = Option.some r → pyFloat cg = Option.some c →
        pyFloat dv = Option.some d →
        get_purification_amount ratio cg dv =
          .dict [("status", .str "ok"),
                 ("ratio_used", .num r),
                 ("inputs", .dict [("capital_gain", .num c), ("dividend_income", .num d)]),
                 ("amount", .num (r * (c + d)))])
    ∧ (∀ ratio cg dv : PyVal,
        pyFloat ratio = Option.none ∨ pyFloat cg = Option.none ∨ pyFloat dv = Option.none →
        get_purification_amount ratio cg dv = invalidNumberDict)
    ∧ get_purification_amount (.num 0.1) (.num 1000) (.num 200) =
        .dict [("status", .str "ok"),
               ("ratio_used", .num 0.1),
               ("inputs", .dict [("capital_gain", .num 1000), ("dividend_income", .num 200)]),
               ("amount", .num 120)]
    ∧ get_purification_amount_defaults (.num 0.2) =
        .dict [("status", .str "ok"),
               ("ratio_used", .num 0.2),
               ("inputs", .dict [("capital_gain", .num 0), ("dividend_income", .num 0)]),
               ("amount", .num 0)]
    ∧ get_purification_amount (.str "abc") (.num 1) (.num 1) = invalidNumberDict := by
  refine ⟨?_, ?_, ?_, ?_, rfl⟩
  · intro ratio cg dv r c d h1 h2 h3
    simp [get_purification_amount, h1, h2, h3]
  · intro ratio cg dv h
    rcases h with h | h | h <;>
      cases hr : pyFloat ratio <;> cases hc : pyFloat cg <;> cases hd : pyFloat dv <;>
        simp_all [get_purification_amount]
  · simp only [get_purification_amount, pyFloat]
    norm_num
  · simp only [get_purification_amount_defaults, purificationDefault,
      get_purification_amount, pyFloat]
    norm_num

/-- C2 witness: the all-coercible case at 2, 3, 4 and a failing coercion
at None. -/
theorem purification_amount_spec_witness :
    get_purification_amount (.num 2) (.num 3) (.num 4) =
      .dict [("status", .str "ok"),
             ("ratio_used", .num 2),
             ("inputs", .dict [("capital_gain", .num 3), ("dividend_income", .num 4)]),
             ("amount", .num (2 * (3 + 4)))]
    ∧ get_purification_amount .none (.num 1) (.num 1) = invalidNumberDict :=
  ⟨purification_amount_spec.1 _ _ _ 2 3 4 rfl rfl rfl,
   purification_amount_spec.2.1 _ _ _ (Or.inl rfl)⟩

/-- C3: for every symbol string that is non-empty after stripping,
get_compliance_report sends the compliance GraphQL document with the
single upstream variable symbol = uppercase(strip(symbol)); the inputs
"aapl", " AAPL " and "Aapl" all produce the identical variable AAPL. -/
theorem compliance_symbol_normalization :
    (∀ (s : String) (resp : HttpResponse), (pyStrip s == "") = false →
      (get_compliance_report (.str s) resp).1 =
        Option.some ⟨complianceEndpoint, query_compliance_report,
          Option.some (.dict [("symbol", .str (pyUpper (pyStrip s)))]),
          Option.some "getReport"⟩)
    ∧ (∀ resp : HttpResponse,
        (get_compliance_report (.str "aapl") resp).1 =
          Option.some ⟨complianceEndpoint, query_compliance_report,
            Option.some (.dict [("symbol", .str "AAPL")]), Option.some "getReport"⟩
        ∧ (get_compliance_report (.str " AAPL ") resp).1 =
          Option.some ⟨complianceEndpoint, query_compliance_report,
            Option.some (.dict [("symbol", .str "AAPL")]), Option.some "getReport"⟩
        ∧ (get_compliance_report (.str "Aapl") resp).1 =
          Option.some ⟨complianceEndpoint, query_compliance_report,
            Option.some (.dict [("symbol", .str "AAPL")]), Option.some "getReport"⟩) := by
  constructor
  · intro s resp h
    simp [get_compliance_report, h]
  · intro resp
    exact ⟨rfl, rfl, rfl⟩

/-- C3 witness at the concrete symbol aapl. -/
theorem compliance_symbol_normalization_witness :
    (get_compliance_report (.str "aapl") ⟨200, "OK", "", Option.none, ""⟩).1 =
      Option.some ⟨complianceEndpoint, query_compliance_report,
        Option.some (.dict [("symbol", .str (pyUpper (pyStrip "aapl")))]),
        Option.some "getReport"⟩ :=
  compliance_symbol_normalization.1 "aapl" _ rfl

/-- C4: a status-200 compliance response whose body is
data.basicCompliance.report = null makes get_compliance_report return the
NotFound dict whose detail message names the normalized (stripped,
uppercased) symbol. -/
theorem compliance_null_report_not_found :
    ∀ (s reason text msg : String), (pyStrip s == "") = false →
      (get_compliance_report (.str s)
          ⟨200, reason, text, Option.some nullReportBody, msg⟩).2 =
        .ok (notFoundDict (pyUpper (pyStrip s))) := by
  intro s reason text msg h
  simp [get_compliance_report, h, retrieve_graphql_endpoint, nullReportBody,
    complianceNormalize, dictFind, lookupD, reportLookup, dictGetD, pyOr, truthy,
    PyVal.isNone]

/-- C4 witness at the concrete symbol aapl. -/
theorem compliance_null_report_not_found_witness :
    (get_compliance_report (.str "aapl")
        ⟨200, "OK", "", Option.some nullReportBody, ""⟩).2 =
      .ok (notFoundDict (pyUpper (pyStrip "aapl"))) :=
  compliance_null_report_not_found "aapl" "OK" "" "" rfl

/-- C6: the empty symbol, whitespace-only symbols, any symbol empty after
stripping, and any non-string argument make get_compliance_report return
the InvalidInput dict with no outbound request issued. -/
theorem compliance_invalid_input_no_network :
    (∀ resp, get_compliance_report (.str "") resp = (Option.none, .ok invalidSymbolDict))
    ∧ (∀ resp, get_compliance_report (.str "   ") resp = (Option.none, .ok invalidSymbolDict))
    ∧ (∀ (s : String) (resp : HttpResponse), (pyStrip s == "") = true →
        get_compliance_report (.str s) resp = (Option.none, .ok invalidSymbolDict))
    ∧ (∀ (v : PyVal) (resp : HttpResponse), (∀ s, v ≠ .str s) →
        get_compliance_report v resp = (Option.none, .ok invalidSymbolDict)) := by
  refine ⟨fun resp => rfl, fun resp => rfl, ?_, ?_⟩
  · intro s resp h
    simp [get_compliance_report, h]
  · intro v resp h
    cases v with
    | str s => exact absurd rfl (h s)
    | none => rfl
    | bool b => rfl
    | num q => rfl
    | list l => rfl
    | dict kvs => rfl

/-- C6 witness: a tab-and-space symbol and a numeric argument. -/
theorem compliance_invalid_input_no_network_witness :
    get_compliance_report (.str " \t ") ⟨200, "OK", "", Option.none, ""⟩ =
      (Option.none, .ok invalidSymbolDict)
    ∧ get_compliance_report (.num 7) ⟨200, "OK", "", Option.none, ""⟩ =
      (Option.none, .ok invalidSymbolDict) :=
  ⟨compliance_invalid_input_no_network.2.2.1 " \t " _ rfl,
   compliance_invalid_input_no_network.2.2.2 (.num 7) _
     (fun s h => PyVal.noConfusion h)⟩

/-- C10: the not-found normalization fires whenever the adapter result
holds a data entry on which the report lookup returns None — also when
data is None or a dict lacking basicCompliance entirely, not only on an
explicit null report field; shown in general over the normalization step
and through the whole tool on two such responses. -/
theorem compliance_notfound_general :
    (∀ (v : String) (result x : PyVal),
        dictFind result "data" = Option.some x → reportLookup x = .ok .none →
        complianceNormalize v result = .ok (notFoundDict v))
    ∧ (∀ (s reason text msg : String), (pyStrip s == "") = false →
        (get_compliance_report (.str s)
            ⟨200, reason, text, Option.some (.dict [("data", .none)]), msg⟩).2 =
          .ok (notFoundDict (pyUpper (pyStrip s)))
        ∧ (get_compliance_report (.str s)
            ⟨200, reason, text,
              Option.some (.dict [("data", .dict [("other", .num 1)])]), msg⟩).2 =
          .ok (notFoundDict (pyUpper (pyStrip s)))) := by
  constructor
  · intro v result x h1 h2
    simp [complianceNormalize, h1, h2, PyVal.isNone]
  · intro s reason text msg h
    constructor <;>
      simp [get_compliance_report, h, retrieve_graphql_endpoint, complianceNormalize,
        dictFind, lookupD, reportLookup, dictGetD, pyOr, truthy, PyVal.isNone]

/-- C10 witness: the normalization step at a result whose data entry is
None. -/
theorem compliance_notfound_general_witness :
    complianceNormalize "B" (.dict [("data", .none)]) = .ok (notFoundDict "B") :=
  compliance_notfound_general.1 "B" (.dict [("data", .none)]) .none rfl rfl

/-- C1 counterexample: a 200 metrics response whose JSON body is null — a
non-dict value the REST adapter hands back unchanged — makes
get_company_overview_CP2 raise TypeError at the membership test `"error"
in data` instead of returning a mapping, so the exception crosses the tool
boundary. -/
theorem overview_raises_on_nondict_body :
    get_company_overview_CP2 "AAPL" ⟨200, "OK", "null", Option.some .none, ""⟩ =
      .error .typeError
    ∧ isDictE (get_company_overview_CP2 "AAPL" ⟨200, "OK", "null", Option.some .none, ""⟩) =
      false :=
  ⟨rfl, rfl⟩

/-- Normalization step on a successful adapter result: a dict is returned
whenever the report lookup on the data entry returns instead of raising. -/
theorem isDictE_complianceNormalize (v : String) (x : PyVal)
    (h : isOkE (reportLookup x) = true) :
    isDictE (complianceNormalize v (.dict [("data", x)])) = true := by
  cases hr : reportLookup x with
  | error e => rw [hr] at h; simp [isOkE] at h
  | ok report =>
      cases report <;>
        simp [complianceNormalize, dictFind, hr, PyVal.isNone, isDictE, notFoundDict]

/-- Overview tool on a response whose parsed body is a dict: a dict comes
back on both the error-passthrough and the metric-extraction paths. -/
theorem isDictE_overview_dict (stock : String) (resp : HttpResponse)
    (kvs : List (String × PyVal))
    (h4 : ¬ 400 ≤ resp.status) (hb : resp.jsonBody = Option.some (.dict kvs)) :
    isDictE (get_company_overview_CP2 stock resp) = true := by
  unfold get_company_overview_CP2 retrieve_from_endpoint
  rw [if_neg h4, hb]
  cases hK : hasKey kvs "error" <;>
    simp [pyContains, hK, dictGetD, isDictE]

/-- C1 (amended): no tool lets an exception escape, and each returns a
mapping, provided the adapter hands back a well-shaped value:
get_purification_amount unconditionally; get_compliance_report for every
response satisfying complianceRespOk (every transport, parse and GraphQL
failure, and any success body whose data entry the report lookup traverses
without reaching a truthy non-dict); get_company_overview_CP2 for every
response satisfying restRespShapeOk (every failure, and any success whose
parsed body is a dict).  The counterexample shows the overview tool
raising outside these shapes, so the for-every-adapter-value form of the
claim is false. -/
theorem tools_return_mappings_when_wellshaped :
    (∀ ratio cg dv, isDict (get_purification_amount ratio cg dv) = true)
    ∧ (∀ (symbol : PyVal) (resp : HttpResponse), complianceRespOk resp = true →
        isDictE (get_compliance_report symbol resp).2 = true)
    ∧ (∀ (stock : String) (resp : HttpResponse), restRespShapeOk resp = true →
        isDictE (get_company_overview_CP2 stock resp) = true) := by
  refine ⟨?_, ?_, ?_⟩
  · intro ratio cg dv
    unfold get_purification_amount
    split
    · rfl
    · rfl
  · intro symbol resp h
    obtain ⟨st, reason, text, body, msg⟩ := resp
    cases symbol with
    | none => rfl
    | bool b => rfl
    | num q => rfl
    | list l => rfl
    | dict kvs => rfl
    | str s =>
      cases hs : (pyStrip s == "") with
      | true => simp [get_compliance_report, hs, isDictE, invalidSymbolDict]
      | false =>
        simp only [get_compliance_report, hs, Bool.false_eq_true, if_false]
        unfold complianceRespOk at h
        unfold retrieve_graphql_endpoint
        dsimp only at h ⊢
        by_cases h4 : 400 ≤ st
        · rw [if_pos h4]
          rfl
        · rw [if_neg h4]
          rw [if_neg h4] at h
          cases body with
          | none => rfl
          | some bv =>
            cases bv with
            | none => rfl
            | bool b => rfl
            | num q => rfl
            | str s2 => rfl
            | list l => rfl
            | dict bkvs =>
              dsimp only at h ⊢
              cases herr : truthy (lookupD bkvs "errors" .none) with
              | true => rfl
              | false =>
                simp at h
                cases h with
                | inl h => rw [herr] at h; simp at h
                | inr h => exact isDictE_complianceNormalize _ _ h
  · intro stock resp h
    obtain ⟨st, reason, text, body, msg⟩ := resp
    unfold restRespShapeOk at h
    dsimp only at h
    by_cases h4 : 400 ≤ st
    · unfold get_company_overview_CP2 retrieve_from_endpoint
      rw [if_pos h4]
      rfl
    · rw [if_neg h4] at h
      cases body with
      | none =>
        unfold get_company_overview_CP2 retrieve_from_endpoint
        rw [if_neg h4]
        rfl
      | some bv =>
        cases bv with
        | dict bkvs => exact isDictE_overview_dict stock _ bkvs h4 rfl
        | none => simp at h
        | bool b => simp at h
        | num q => simp at h
        | str s2 => simp at h
        | list l => simp at h

/-- C1 witness: concrete well-shaped responses for the two network-bound
tools. -/
theorem tools_return_mappings_when_wellshaped_witness :
    isDictE (get_compliance_report (.str "aapl")
        ⟨200, "OK", "", Option.some (.dict [("data", .none)]), ""⟩).2 = true
    ∧ isDictE (get_company_overview_CP2 "AAPL"
        ⟨200, "OK", "", Option.some (.dict [("metric", .dict [("peTTM", .num 30)])]), ""⟩) = true :=
  ⟨tools_return_mappings_when_wellshaped.2.1 (.str "aapl") _ rfl,
   tools_return_mappings_when_wellshaped.2.2 "AAPL" _ rfl⟩
